import Mathlib

/-!
Verification development for the `vm-attest-proto` repository.

The development shallowly embeds the Rust sources:
  * `src/lib.rs`    — the `AttestMock` aggregating attester (namespace `VmAttest`);
  * `src/socket.rs` — the socket transport client/server (namespace `VmInstance`);
  * `src/bin/client.rs` — the challenger-side verification pipeline
    (namespace `VmInstance.Client`).

Machine bytes are `Nat` values (`< 256` where it matters), byte strings are
`List Nat`, and fallible Rust code becomes `Except`.  The external `sha2`
crate's SHA-256 is embedded executably (FIPS 180-4) so that digest claims can
be settled on concrete inputs; other external collaborators (`hubpack`,
`serde_json`, `dice-verifier`, the wrapped Oxide attester) are parameters of
the embedded functions, exactly as the spec treats them (opaque capabilities).
-/

/-! ## SHA-256 (the `sha2` crate's `Sha256`), FIPS 180-4, over byte lists -/

/-- `2 ^ 32`, the modulus for 32-bit word arithmetic. -/
def M32 : Nat := 4294967296

/-- 32-bit wrapping addition. -/
def add32 (a b : Nat) : Nat := (a + b) % M32

/-- Right rotation of a 32-bit word by `n` bits. -/
def rotr32 (n x : Nat) : Nat := (x / 2 ^ n + x % 2 ^ n * 2 ^ (32 - n)) % M32

/-- Logical right shift of a 32-bit word by `n` bits. -/
def shr32 (n x : Nat) : Nat := x / 2 ^ n

/-- Bitwise complement of a 32-bit word. -/
def not32 (x : Nat) : Nat := 4294967295 - x % M32

/-- SHA-256 `Ch(x,y,z)`. -/
def ch32 (x y z : Nat) : Nat := (x &&& y) ^^^ (not32 x &&& z)

/-- SHA-256 `Maj(x,y,z)`. -/
def maj32 (x y z : Nat) : Nat := (x &&& y) ^^^ (x &&& z) ^^^ (y &&& z)

/-- SHA-256 `Σ₀`. -/
def bsig0 (x : Nat) : Nat := rotr32 2 x ^^^ rotr32 13 x ^^^ rotr32 22 x

/-- SHA-256 `Σ₁`. -/
def bsig1 (x : Nat) : Nat := rotr32 6 x ^^^ rotr32 11 x ^^^ rotr32 25 x

/-- SHA-256 `σ₀`. -/
def ssig0 (x : Nat) : Nat := rotr32 7 x ^^^ rotr32 18 x ^^^ shr32 3 x

/-- SHA-256 `σ₁`. -/
def ssig1 (x : Nat) : Nat := rotr32 17 x ^^^ rotr32 19 x ^^^ shr32 10 x

/-- The 64 SHA-256 round constants. -/
def sha256K : List Nat :=
  [1116352408, 1899447441, 3049323471, 3921009573, 961987163, 1508970993,
   2453635748, 2870763221, 3624381080, 310598401, 607225278, 1426881987,
   1925078388, 2162078206, 2614888103, 3248222580, 3835390401, 4022224774,
   264347078, 604807628, 770255983, 1249150122, 1555081692, 1996064986,
   2554220882, 2821834349, 2952996808, 3210313671, 3336571891, 3584528711,
   113926993, 338241895, 666307205, 773529912, 1294757372, 1396182291,
   1695183700, 1986661051, 2177026350, 2456956037, 2730485921, 2820302411,
   3259730800, 3345764771, 3516065817, 3600352804, 4094571909, 275423344,
   430227734, 506948616, 659060556, 883997877, 958139571, 1322822218,
   1537002063, 1747873779, 1955562222, 2024104815, 2227730452, 2361852424,
   2428436474, 2756734187, 3204031479, 3329325298]

/-- The eight SHA-256 initial hash values. -/
def sha256H0 : List Nat :=
  [1779033703, 3144134277, 1013904242, 2773480762,
   1359893119, 2600822924, 528734635, 1541459225]

/-- Big-endian packing of bytes into 32-bit words (trailing partial group dropped;
inputs are always a multiple of 4 bytes here). -/
def bytesToWords : List Nat → List Nat
  | b0 :: b1 :: b2 :: b3 :: rest =>
      (((b0 * 256 + b1) * 256 + b2) * 256 + b3) :: bytesToWords rest
  | _ => []

/-- Big-endian unpacking of one 32-bit word into 4 bytes. -/
def wordToBytes (w : Nat) : List Nat :=
  [w / 2 ^ 24 % 256, w / 2 ^ 16 % 256, w / 2 ^ 8 % 256, w % 256]

/-- Big-endian unpacking of a word list into bytes. -/
def wordsToBytes (ws : List Nat) : List Nat :=
  ws.foldr (fun w acc => wordToBytes w ++ acc) []

/-- Big-endian 8-byte encoding of a 64-bit length field. -/
def lenBytes64 (n : Nat) : List Nat :=
  [n / 2 ^ 56 % 256, n / 2 ^ 48 % 256, n / 2 ^ 40 % 256, n / 2 ^ 32 % 256,
   n / 2 ^ 24 % 256, n / 2 ^ 16 % 256, n / 2 ^ 8 % 256, n % 256]

/-- SHA-256 padding: append `128`, zeros to 56 mod 64, then the bit length. -/
def padMessage (msg : List Nat) : List Nat :=
  msg ++ 128 :: (List.replicate ((119 - msg.length % 64) % 64) 0
    ++ lenBytes64 (8 * msg.length))

/-- One message-schedule extension step: append `w[t] = σ₁(w[t-2]) + w[t-7] + σ₀(w[t-15]) + w[t-16]`. -/
def schedStep (w : List Nat) : List Nat :=
  let t := w.length
  w ++ [(ssig1 (w.getD (t - 2) 0) + w.getD (t - 7) 0
         + ssig0 (w.getD (t - 15) 0) + w.getD (t - 16) 0) % M32]

/-- Extend the 16-word schedule by `n` further words. -/
def extendSched : Nat → List Nat → List Nat
  | 0, w => w
  | n + 1, w => extendSched n (schedStep w)

/-- One SHA-256 compression round on the 8-word working state. -/
def roundStep (k w : Nat) (st : List Nat) : List Nat :=
  match st with
  | [a, b, c, d, e, f, g, h] =>
      let t1 := (h + bsig1 e + ch32 e f g + k + w) % M32
      let t2 := (bsig0 a + maj32 a b c) % M32
      [(t1 + t2) % M32, a, b, c, (d + t1) % M32, e, f, g]
  | st => st

/-- Run the 64 compression rounds, consuming the constants and the schedule. -/
def rounds : List Nat → List Nat → List Nat → List Nat
  | [], _, st => st
  | _, [], st => st
  | k :: ks, w :: ws, st => rounds ks ws (roundStep k w st)

/-- Compress one 64-byte block into the chaining state. -/
def compress (h : List Nat) (block : List Nat) : List Nat :=
  List.zipWith add32 h (rounds sha256K (extendSched 48 (bytesToWords block)) h)

/-- Split a byte list into 64-byte blocks (fuel-driven so the kernel can reduce it). -/
def toBlocksAux : Nat → List Nat → List (List Nat)
  | 0, _ => []
  | _ + 1, [] => []
  | fuel + 1, l => l.take 64 :: toBlocksAux fuel (l.drop 64)

/-- Split a byte list into 64-byte blocks. -/
def toBlocks (l : List Nat) : List (List Nat) := toBlocksAux (l.length + 1) l

/-- Fold the compression function over all blocks. -/
def sha256Blocks : List (List Nat) → List Nat → List Nat
  | [], h => h
  | b :: bs, h => sha256Blocks bs (compress h b)

/-- SHA-256 of a byte string, as 32 bytes. -/
def sha256Hash (msg : List Nat) : List Nat :=
  wordsToBytes (sha256Blocks (toBlocks (padMessage msg)) sha256H0)

namespace Sha256

/-- The streaming-hash context of the `sha2` crate: semantically, the bytes
absorbed so far. -/
structure Ctx where
  buf : List Nat
  deriving Repr, DecidableEq

/-- `Sha256::new()`. -/
def new : Ctx := ⟨[]⟩

/-- `Digest::update`: absorb more bytes. -/
def update (c : Ctx) (data : List Nat) : Ctx := ⟨c.buf ++ data⟩

/-- `Digest::finalize`: hash of everything absorbed. -/
def finalize (c : Ctx) : List Nat := sha256Hash c.buf

end Sha256

/-! ## `src/lib.rs` — the `AttestMock` aggregating attester

External collaborators are parameters: `enc`/`encLog` are the `hubpack`
encodings of the Oxide statement/log types (with their `SerializedSize`
schema bounds `maxSize`/`logMaxSize`), and `oxattest`/`oxGetLog`/`oxGetCerts`
are the operations of the wrapped `OxAttestMock`. -/

namespace VmAttest

/-- `RotType` from `src/lib.rs` (this generation has a single variant). -/
inductive RotType
  | OxideHardware
  deriving Repr, DecidableEq

/-- `Attestation` from `src/lib.rs`. -/
structure Attestation where
  rot : RotType
  data : List Nat
  deriving Repr, DecidableEq

/-- `MeasurementLog` from `src/lib.rs`. -/
structure MeasurementLog where
  rot : RotType
  data : List Nat
  deriving Repr, DecidableEq

/-- `AttestMockError` from `src/lib.rs`, polymorphic over the external error
types `OxAttestError` and `OxAttestDataError` of the `dice-verifier` and
`attest-data` crates. -/
inductive AttestMockError (OxErr OxDataErr : Type)
  | Serialize
  | OxideAttestError (e : OxErr)
  | OxideAttestDataError (e : OxDataErr)
  deriving Repr, DecidableEq

/-- Model of `hubpack::serialize(&mut buf, &v)`: writes the encoding `enc v`
into the prefix of `buf` and returns the written buffer together with the
number of bytes written; fails exactly when the buffer is too small. -/
def hubpackSerialize {α : Type} (enc : α → List Nat) (buf : List Nat) (v : α) :
    Except Unit (List Nat × Nat) :=
  if (enc v).length ≤ buf.length then
    .ok (enc v ++ buf.drop (enc v).length, (enc v).length)
  else .error ()

/-- The digest `AttestMock::attest` builds before delegating
(`src/lib.rs` lines 108–114): a `Sha256` context updated with the nonce and
then the user data (the updates with platform attestations and VM
configuration data are commented out in the source). -/
def attestDigest (nonce user_data : List Nat) : List Nat :=
  Sha256.finalize (Sha256.update (Sha256.update Sha256.new nonce) user_data)

/-- `AttestMock::attest` (`src/lib.rs` lines 103–130): hash nonce and user
data into the inner nonce, delegate to the wrapped attester, serialize the
signed statement into a `MAX_SIZE` buffer, truncate, and return it as the
single `Attestation` tagged `OxideHardware`. -/
def attest {OxAtt OxErr OxDataErr : Type} (enc : OxAtt → List Nat)
    (maxSize : Nat) (oxattest : List Nat → Except OxErr OxAtt)
    (nonce user_data : List Nat) :
    Except (AttestMockError OxErr OxDataErr) (List Attestation) :=
  match oxattest (attestDigest nonce user_data) with
  | .error e => .error (.OxideAttestError e)
  | .ok att =>
      match hubpackSerialize enc (List.replicate maxSize 0) att with
      | .error _ => .error .Serialize
      | .ok (data, len) =>
          .ok [{ rot := RotType.OxideHardware, data := data.take len }]

/-- `AttestMock::get_measurement_logs` (`src/lib.rs` lines 133–146): fetch the
wrapped attester's log, serialize it into a `Log::MAX_SIZE` buffer, truncate,
and return it as the single `MeasurementLog` tagged `OxideHardware`. -/
def get_measurement_logs {Log OxErr OxDataErr : Type} (encLog : Log → List Nat)
    (logMaxSize : Nat) (oxGetLog : Except OxErr Log) :
    Except (AttestMockError OxErr OxDataErr) (List MeasurementLog) :=
  match oxGetLog with
  | .error e => .error (.OxideAttestError e)
  | .ok oxide_log =>
      match hubpackSerialize encLog (List.replicate logMaxSize 0) oxide_log with
      | .error _ => .error .Serialize
      | .ok (data, len) =>
          .ok [{ rot := RotType.OxideHardware, data := data.take len }]

/-- `AttestMock::get_cert_chain` (`src/lib.rs` lines 148–154). -/
def get_cert_chain {PkiPath OxErr OxDataErr : Type}
    (oxGetCerts : Except OxErr PkiPath) (rot : RotType) :
    Except (AttestMockError OxErr OxDataErr) PkiPath :=
  match rot with
  | RotType.OxideHardware =>
      match oxGetCerts with
      | .ok p => .ok p
      | .error e => .error (.OxideAttestError e)

end VmAttest

/-! ## The `VmInstanceAttester` generation of the entity model

`src/socket.rs` and `src/bin/client.rs` are written against a newer `lib.rs`
generation (`VmInstanceAttester`, `CertChain`, a two-variant `RotType`) whose
declarations are not among the provided sources; only their uses are.  The
declarations below are therefore reconstructed from those uses and §3 of the
spec. -/

namespace VmInstance

/-- Modelled from the spec: the `RotType` of the `VmInstanceAttester`
generation — its declaration is missing from the provided sources; §3 fixes a
closed set of platform-hardware and VM-instance RoTs, and `client.rs` matches
exactly `OxidePlatform` and `OxideInstance`. -/
inductive RotType
  | OxidePlatform
  | OxideInstance
  deriving Repr, DecidableEq

/-- Modelled from the spec: the `Attestation` entity of the
`VmInstanceAttester` generation (declaration missing from the provided
sources) — `rot: RotType`, `data: opaque bytes`, as in §3 and its uses in
`client.rs`. -/
structure Attestation where
  rot : RotType
  data : List Nat
  deriving Repr, DecidableEq

/-- Modelled from the spec: the `MeasurementLog` entity of the
`VmInstanceAttester` generation (declaration missing from the provided
sources) — `rot: RotType`, `data: opaque bytes`. -/
structure MeasurementLog where
  rot : RotType
  data : List Nat
  deriving Repr, DecidableEq

/-- Modelled from the spec: the `CertChain` entity (declaration missing from
the provided sources) — `rot: RotType`, `certs`: ordered DER certificates,
leaf first, as in §3 and its uses in `client.rs`. -/
structure CertChain where
  rot : RotType
  certs : List (List Nat)
  deriving Repr, DecidableEq

/-- `AttestData` from `src/socket.rs`. -/
structure AttestData where
  nonce : List Nat
  user_data : List Nat
  deriving Repr, DecidableEq

/-- `Command` from `src/socket.rs`. -/
inductive Command
  | Attest (data : AttestData)
  deriving Repr, DecidableEq

/-- Outcome of client-side Rust code that may panic (`todo!`, `expect`,
`assert!`, out-of-bounds indexing) in addition to returning `Result`. -/
inductive POut (ε α : Type)
  | ok (a : α)
  | err (e : ε)
  | panicked (msg : String)
  deriving Repr, DecidableEq

/-- Sequencing for `POut`: errors and panics propagate. -/
def pbind {ε α β : Type} : POut ε α → (α → POut ε β) → POut ε β
  | .ok a, f => f a
  | .err e, _ => .err e
  | .panicked m, _ => .panicked m

/-- Whether an outcome is a successful completion (neither an error exit nor
a panic). -/
def POut.isOk {ε α : Type} : POut ε α → Bool
  | .ok _ => true
  | _ => false

/-- `VmInstanceAttestSocketError` from `src/socket.rs`, polymorphic over the
external `serde_json::Error` and `std::io::Error` types. -/
inductive VmInstanceAttestSocketError (JsonErr IOErr : Type)
  | CommandDeserialize (e : JsonErr)
  | Socket (e : IOErr)
  deriving Repr, DecidableEq

namespace VmInstanceAttestSocket

/-- `VmInstanceAttestSocket::attest` (`src/socket.rs` lines 59–87):
serialize the `Attest` command to JSON, write it with a trailing newline,
read one response line, decode it as a list of attestations.  The JSON codec
(`encCmd`, `decResp`) and the socket round trip (`transport`) are external
parameters. -/
def attest {JsonErr IOErr : Type} (encCmd : Command → Except JsonErr String)
    (transport : String → Except IOErr String)
    (decResp : String → Except JsonErr (List Attestation))
    (nonce user_data : List Nat) :
    Except (VmInstanceAttestSocketError JsonErr IOErr) (List Attestation) :=
  match encCmd (Command.Attest { nonce := nonce, user_data := user_data }) with
  | .error e => .error (.CommandDeserialize e)
  | .ok command =>
      match transport (command ++ "\n") with
      | .error e => .error (.Socket e)
      | .ok response =>
          match decResp response with
          | .error e => .error (.CommandDeserialize e)
          | .ok attestations => .ok attestations

/-- `VmInstanceAttestSocket::get_measurement_logs` (`src/socket.rs` lines
91–93): a `todo!` stub — every invocation panics. -/
def get_measurement_logs {Err : Type} : POut Err (List MeasurementLog) :=
  .panicked "VmInstanceAttestSocket::get_measurement_logs"

/-- `VmInstanceAttestSocket::get_cert_chains` (`src/socket.rs` lines 97–99):
a `todo!` stub — every invocation panics. -/
def get_cert_chains {Err : Type} : POut Err (List CertChain) :=
  .panicked "VmInstanceAttestSocket::get_cert_chains"

end VmInstanceAttestSocket

/-- `VmInstanceAttestSocketRunError` from `src/socket.rs`, polymorphic over
the external mock, `serde_json`, and `std::io` error types. -/
inductive VmInstanceAttestSocketRunError (MockErr JsonErr IOErr : Type)
  | MockRotError (e : MockErr)
  | CommandDeserialize (e : JsonErr)
  | Socket (e : IOErr)
  | Serialize
  deriving Repr, DecidableEq

/-- One event of the server's accept loop: either `listener.incoming()`
yields an error, or a connection whose `read_line` result is `read` and whose
`write_all` outcome is `writeErr` (`none` = success). -/
inductive ConnEvent (IOErr : Type)
  | acceptFailure (e : IOErr)
  | conn (read : Except IOErr String) (writeErr : Option IOErr)

namespace VmInstanceAttestSocketServer

/-- `VmInstanceAttestSocketServer::run` (`src/socket.rs` lines 131–164) over
a finite prefix of the accept loop's events.  `msg` is the line buffer
declared outside the loop (`read_line` appends to it; it is cleared at the
end of a successful iteration).  `decode`/`encode` are the external
`serde_json` codec and `mockAttest` the held mock's `attest`.  Every `?` in
the loop body returns from `run` itself, so the result is the list of
responses written before the first failure, or that failure. -/
def run {MockErr JsonErr IOErr : Type}
    (decode : String → Except JsonErr Command)
    (encode : List Attestation → Except JsonErr String)
    (mockAttest : List Nat → List Nat → Except MockErr (List Attestation)) :
    String → List (ConnEvent IOErr) →
    Except (VmInstanceAttestSocketRunError MockErr JsonErr IOErr) (List String)
  | _, [] => .ok []
  | msg, ev :: rest =>
      match ev with
      | .acceptFailure e => .error (.Socket e)
      | .conn read writeErr =>
          match read with
          | .error e => .error (.Socket e)
          | .ok line =>
              let msg := msg ++ line
              match decode msg with
              | .error e => .error (.CommandDeserialize e)
              | .ok (Command.Attest data) =>
                  match mockAttest data.nonce data.user_data with
                  | .error e => .error (.MockRotError e)
                  | .ok attestations =>
                      match encode attestations with
                      | .error e => .error (.CommandDeserialize e)
                      | .ok response =>
                          let response := response ++ "\n"
                          match writeErr with
                          | some e => .error (.Socket e)
                          | none =>
                              match run decode encode mockAttest "" rest with
                              | .ok responses => .ok (response :: responses)
                              | .error e => .error e

end VmInstanceAttestSocketServer

end VmInstance

namespace VmInstance

/-- The `VmInstanceAttester` trait as a record of operations (the client is
polymorphic over the attester behind it).  Results are `POut` so that the
socket implementation's `todo!` stubs are representable. -/
structure VmInstanceAttesterOps (CapErr : Type) where
  attest : List Nat → List Nat → POut CapErr (List Attestation)
  get_measurement_logs : POut CapErr (List MeasurementLog)
  get_cert_chains : POut CapErr (List CertChain)

/-- The socket-backed attester as a `VmInstanceAttesterOps`:
`attest` goes over the transport, the other two operations are the `todo!`
stubs. -/
def VmInstanceAttestSocket.ops {JsonErr IOErr : Type}
    (encCmd : Command → Except JsonErr String)
    (transport : String → Except IOErr String)
    (decResp : String → Except JsonErr (List Attestation)) :
    VmInstanceAttesterOps (VmInstanceAttestSocketError JsonErr IOErr) where
  attest nonce user_data :=
    match VmInstanceAttestSocket.attest encCmd transport decResp nonce user_data with
    | .ok a => .ok a
    | .error e => .err e
  get_measurement_logs := VmInstanceAttestSocket.get_measurement_logs
  get_cert_chains := VmInstanceAttestSocket.get_cert_chains

namespace Client

/-- The distinct failure exits of `src/bin/client.rs` `main` (each `anyhow`
context string becomes a variant), polymorphic over the external error
payloads it wraps. -/
inductive ClientError (LoadErr IOErr CapErr DerErr VerifyErr : Type)
  | SocketFileMissing
  | ReadRootCert (e : LoadErr)
  | NoRootNotSelfSigned
  | Connect (e : IOErr)
  | GetCertChains (e : CapErr)
  | CertFromDer (e : DerErr)
  | VerifyCertChain (e : VerifyErr)
  | GetMeasurementLogs (e : CapErr)
  | GetAttestations (e : CapErr)
  | UnexpectedAttestationCount
  | UnexpectedRotType (rot : RotType)
  | DeserializeAttestation
  | NoPlatformMeasurementLog
  | AttestationVerificationFailed
  deriving Repr, DecidableEq

/-- Map a capability error into a `ClientError`, passing panics through. -/
def mapCap {ε₁ LoadErr IOErr CapErr DerErr VerifyErr α : Type}
    (f : ε₁ → ClientError LoadErr IOErr CapErr DerErr VerifyErr) :
    POut ε₁ α → POut (ClientError LoadErr IOErr CapErr DerErr VerifyErr) α
  | .ok a => .ok a
  | .err e => .err (f e)
  | .panicked m => .panicked m

/-- The root-trust configuration step of `client.rs` `main` (lines 45–63):
a `--root-cert` path is loaded (`loadRoot` models `fs::read` plus
`Certificate::load_pem_chain`); with no path, `--self-signed` must have been
passed explicitly, otherwise a configuration error. -/
def rootTrust {Path RootBundle LoadErr IOErr CapErr DerErr VerifyErr : Type}
    (loadRoot : Path → Except LoadErr RootBundle)
    (root_cert : Option Path) (self_signed : Bool) :
    Except (ClientError LoadErr IOErr CapErr DerErr VerifyErr) (Option RootBundle) :=
  match root_cert with
  | some path =>
      match loadRoot path with
      | .ok c => .ok (some c)
      | .error e => .error (.ReadRootCert e)
  | none => if !self_signed then .error .NoRootNotSelfSigned else .ok none

/-- The certificate-chain loop of `client.rs` `main` (lines 80–106):
platform chains are DER-decoded and validated against the configured root by
the external `dice_verifier::verify_cert_chain`; an instance-typed chain hits
`assert!(false)` — a panic. -/
def certChainLoop {RootBundle Root Cert LoadErr IOErr CapErr DerErr VerifyErr : Type}
    (fromDer : List Nat → Except DerErr Cert)
    (verifyChain : List Cert → Option RootBundle → Except VerifyErr Root)
    (root : Option RootBundle) :
    List CertChain → POut (ClientError LoadErr IOErr CapErr DerErr VerifyErr) Unit
  | [] => .ok ()
  | cert_chain :: rest =>
      match cert_chain.rot with
      | RotType.OxidePlatform =>
          match cert_chain.certs.mapM fromDer with
          | .error e => .err (.CertFromDer e)
          | .ok cert_chain_pem =>
              match verifyChain cert_chain_pem root with
              | .error e => .err (.VerifyCertChain e)
              | .ok _ => certChainLoop fromDer verifyChain root rest
      | RotType.OxideInstance => .panicked "assertion failed"

/-- The attestation-count and RoT-type checks of `client.rs` `main`
(lines 117–127): exactly one attestation, tagged `OxidePlatform`. -/
def checkAttestations {LoadErr IOErr CapErr DerErr VerifyErr : Type}
    (attestations : List Attestation) :
    POut (ClientError LoadErr IOErr CapErr DerErr VerifyErr) Attestation :=
  if attestations.length ≠ 1 then .err .UnexpectedAttestationCount
  else
    match attestations.head? with
    | none => .panicked "index out of bounds"
    | some attestation =>
        if attestation.rot ≠ RotType.OxidePlatform then
          .err (.UnexpectedRotType attestation.rot)
        else .ok attestation

/-- The body of the log loop in `client.rs` `main` (lines 142–147): absorb
the log's `data` if it is `OxideInstance`-typed, `continue` otherwise. -/
def digestStep (d : Sha256.Ctx) (log : MeasurementLog) : Sha256.Ctx :=
  match log.rot with
  | RotType.OxideInstance => Sha256.update d log.data
  | _ => d

/-- The digest reconstruction of `client.rs` `main` (lines 139–155): a
`Sha256` context absorbing the `data` of every `OxideInstance`-typed log in
order, then the nonce, then the user data. -/
def reconstructDigest (logs : List MeasurementLog) (nonce data : List Nat) :
    List Nat :=
  let data_digest := Sha256.new
  let data_digest := logs.foldl digestStep data_digest
  let data_digest := Sha256.update data_digest nonce
  let data_digest := Sha256.update data_digest data
  Sha256.finalize data_digest

/-- The platform-log lookup of `client.rs` `main` (lines 161–167):
`find_map` over the fetched logs. -/
def findPlatformLog (logs : List MeasurementLog) : Option MeasurementLog :=
  logs.findSome? (fun log =>
    if log.rot = RotType.OxidePlatform then some log else none)

/-- Lines 139–175 of `client.rs` `main` as one step: the reconstructed digest
together with the platform RoT's raw log, or the missing-log error. -/
def logPhase {LoadErr IOErr CapErr DerErr VerifyErr : Type}
    (logs : List MeasurementLog) (nonce data : List Nat) :
    Except (ClientError LoadErr IOErr CapErr DerErr VerifyErr)
      (List Nat × MeasurementLog) :=
  let data_digest := reconstructDigest logs nonce data
  match findPlatformLog logs with
  | some oxlog => .ok (data_digest, oxlog)
  | none => .error .NoPlatformMeasurementLog

/-- The signer-leaf lookup of `client.rs` `main` (lines 177–179):
`cert_chains[0].certs[0]` (panicking indexes) decoded with
`Certificate::from_der(..).expect(..)` (panicking on failure). -/
def signerLeaf {Cert LoadErr IOErr CapErr DerErr VerifyErr : Type}
    (fromDer : List Nat → Except DerErr Cert) (cert_chains : List CertChain) :
    POut (ClientError LoadErr IOErr CapErr DerErr VerifyErr) Cert :=
  match cert_chains with
  | [] => .panicked "index out of bounds"
  | chain :: _ =>
      match chain.certs with
      | [] => .panicked "index out of bounds"
      | c :: _ =>
          match fromDer c with
          | .ok cert => .ok cert
          | .error _ => .panicked "Certificate from DER"

/-- `main` of `src/bin/client.rs`, step for step.  All external collaborators
are parameters: `loadRoot` (filesystem + PEM parsing), `connect` (socket
connection), `nonce` (the platform RNG), the attester capability `ops`,
`fromDer` (DER decoding), `verifyChain`/`verifyAttestation` (the
`dice-verifier` black box), and `hubDeserAtt`/`hubDeserLog` (the `hubpack`
decodings of the statement and log schemas). -/
def main {Path RootBundle Root Cert OxAtt Log LoadErr IOErr CapErr DerErr VerifyErr : Type}
    (file_exists : Bool)
    (loadRoot : Path → Except LoadErr RootBundle)
    (root_cert : Option Path) (self_signed : Bool)
    (connect : Except IOErr Unit)
    (nonce : List Nat)
    (ops : VmInstanceAttesterOps CapErr)
    (fromDer : List Nat → Except DerErr Cert)
    (verifyChain : List Cert → Option RootBundle → Except VerifyErr Root)
    (hubDeserAtt : List Nat → Except Unit OxAtt)
    (hubDeserLog : List Nat → Except Unit Log)
    (verifyAttestation : Cert → OxAtt → Log → List Nat → Except VerifyErr Unit) :
    POut (ClientError LoadErr IOErr CapErr DerErr VerifyErr) Unit :=
  if !file_exists then .err .SocketFileMissing
  else
    match rootTrust loadRoot root_cert self_signed with
    | .error e => .err e
    | .ok root =>
        match connect with
        | .error e => .err (.Connect e)
        | .ok _ =>
            let data := [66, 77, 88, 99]
            pbind (mapCap ClientError.GetCertChains ops.get_cert_chains)
              fun cert_chains =>
            pbind (certChainLoop fromDer verifyChain root cert_chains) fun _ =>
            pbind (mapCap ClientError.GetMeasurementLogs ops.get_measurement_logs)
              fun logs =>
            pbind (mapCap ClientError.GetAttestations (ops.attest nonce data))
              fun attestations =>
            pbind (checkAttestations attestations) fun attestation =>
            match hubDeserAtt attestation.data with
            | .error _ => .err .DeserializeAttestation
            | .ok oxatt =>
                let data_digest := reconstructDigest logs nonce data
                match findPlatformLog logs with
                | none => .err .NoPlatformMeasurementLog
                | some oxlog =>
                    match hubDeserLog oxlog.data with
                    | .error _ => .panicked "deserialize hubpacked log"
                    | .ok log =>
                        pbind (signerLeaf fromDer cert_chains) fun cert =>
                        match verifyAttestation cert oxatt log data_digest with
                        | .error _ => .err .AttestationVerificationFailed
                        | .ok _ => .ok ()

end Client

end VmInstance

/-! ## Concrete fixtures used by counterexamples and witnesses -/

namespace Fx

/-- A 32-byte all-zero nonce (a legitimate `Nonce` value). -/
def n0 : List Nat := List.replicate 32 0

/-- The user data `client.rs` sends: `vec![66, 77, 88, 99]`. -/
def d0 : List Nat := [66, 77, 88, 99]

/-- An instance-RoT measurement log with one byte of content. -/
def instLog : VmInstance.MeasurementLog :=
  { rot := VmInstance.RotType.OxideInstance, data := [1] }

/-- A platform-RoT measurement log with one byte of content. -/
def platLog : VmInstance.MeasurementLog :=
  { rot := VmInstance.RotType.OxidePlatform, data := [5] }

/-- A platform-RoT certificate chain with a single one-byte DER certificate. -/
def platChain : VmInstance.CertChain :=
  { rot := VmInstance.RotType.OxidePlatform, certs := [[1]] }

/-- A platform-tagged attestation with a one-byte payload. -/
def platAtt : VmInstance.Attestation :=
  { rot := VmInstance.RotType.OxidePlatform, data := [9] }

/-- A command decoder standing in for `serde_json::from_str::<Command>`: it
accepts the line `good` and rejects everything else (as the real decoder
rejects non-JSON input). -/
def decode0 (s : String) : Except Unit VmInstance.Command :=
  if s = "good\n" then .ok (VmInstance.Command.Attest { nonce := [0], user_data := [] })
  else .error ()

/-- A response encoder standing in for `serde_json::to_string`. -/
def encode0 (_ : List VmInstance.Attestation) : Except Unit String := .ok "resp"

/-- A mock attester that always succeeds with an empty attestation list. -/
def mock0 (_ _ : List Nat) : Except Unit (List VmInstance.Attestation) := .ok []

/-- A connection whose single line is a well-formed command. -/
def goodEv : VmInstance.ConnEvent Unit := .conn (.ok "good\n") none

/-- A connection whose single line is a malformed command. -/
def badEv : VmInstance.ConnEvent Unit := .conn (.ok "bad\n") none

end Fx

/-! ## Theorems -/

set_option maxRecDepth 100000

/-- Sanity check of the SHA-256 embedding against the FIPS 180-4 test vector
for the message `abc`. -/
theorem sha256Hash_abc :
    sha256Hash [97, 98, 99] =
      [186, 120, 22, 191, 143, 1, 207, 234,
       65, 65, 64, 222, 93, 174, 34, 35,
       176, 3, 97, 163, 150, 23, 122, 156,
       180, 16, 255, 97, 242, 0, 21, 173] := by decide

/-- Claim C1 (code bug evidence): at the concrete triple
`nonce = 32 zero bytes`, `user_data = [66, 77, 88, 99]`,
`instance log data = [1]`, the digest `AttestMock::attest` computes
(`sha256(nonce || user_data)`, the platform-evidence updates being commented
out) differs from the digest the client pipeline reconstructs
(`sha256(instance_log || nonce || user_data)`), so the two ends of the
protocol cannot agree whenever the instance log bytes are nonempty. -/
theorem attestDigest_ne_client_reconstruction :
    VmAttest.attestDigest Fx.n0 Fx.d0 ≠
      VmInstance.Client.reconstructDigest [Fx.instLog] Fx.n0 Fx.d0 := by decide

/-- Claim C2: for every 32-byte nonce and every user data, the inner nonce
`AttestMock::attest` builds is `SHA-256(nonce || user_data)` (nonce first),
and the wrapped attester is consulted only at that digest — replacing it by
the function that ignores its argument and answers at the digest leaves
`attest` unchanged, so the wrapped attester never sees the raw nonce. -/
theorem attest_inner_nonce {OxAtt OxErr OxDataErr : Type}
    (enc : OxAtt → List Nat) (maxSize : Nat)
    (oxattest : List Nat → Except OxErr OxAtt)
    (nonce user_data : List Nat) (_h : nonce.length = 32) :
    VmAttest.attestDigest nonce user_data = sha256Hash (nonce ++ user_data) ∧
    @VmAttest.attest OxAtt OxErr OxDataErr enc maxSize oxattest nonce user_data =
      @VmAttest.attest OxAtt OxErr OxDataErr enc maxSize
        (fun _ => oxattest (sha256Hash (nonce ++ user_data))) nonce user_data :=
  ⟨rfl, rfl⟩

/-- Witness for C2 at the concrete nonce `Fx.n0` and user data `Fx.d0`. -/
theorem attest_inner_nonce_witness :
    Fx.n0.length = 32 ∧
    (VmAttest.attestDigest Fx.n0 Fx.d0 = sha256Hash (Fx.n0 ++ Fx.d0) ∧
      @VmAttest.attest Unit Unit Unit (fun _ => [0]) 1 (fun _ => .ok ()) Fx.n0 Fx.d0 =
        @VmAttest.attest Unit Unit Unit (fun _ => [0]) 1
          (fun _ => Except.ok ()) Fx.n0 Fx.d0) :=
  ⟨by decide,
   attest_inner_nonce (fun _ => [0]) 1 (fun _ => .ok ()) Fx.n0 Fx.d0 (by decide)⟩

/-- Helper: a fold of the client's log-loop body over logs none of which is
instance-typed leaves the hash context unchanged. -/
theorem foldl_digestStep_no_instance :
    ∀ (logs : List VmInstance.MeasurementLog) (c : Sha256.Ctx),
      (∀ log ∈ logs, log.rot ≠ VmInstance.RotType.OxideInstance) →
      logs.foldl VmInstance.Client.digestStep c = c
  | [], _, _ => rfl
  | hd :: tl, c, h => by
      have hhd : hd.rot ≠ VmInstance.RotType.OxideInstance :=
        h hd (List.mem_cons_self hd tl)
      have step : VmInstance.Client.digestStep c hd = c := by
        unfold VmInstance.Client.digestStep
        cases hr : hd.rot
        · rfl
        · exact absurd hr hhd
      rw [List.foldl_cons, step]
      exact foldl_digestStep_no_instance tl c
        (fun l hl => h l (List.mem_cons_of_mem hd hl))

/-- Claim C3 (amended): the client's missing-log check applies only to the
platform RoT log — if no platform-typed log was fetched, the log phase fails
with the missing-log error; absence of an instance-typed log is not detected,
and the digest is silently reconstructed with the instance-log contribution
empty (`sha256(nonce || user_data)`). -/
theorem missing_log_check_platform_only {LoadErr IOErr CapErr DerErr VerifyErr : Type} :
    (∀ (logs : List VmInstance.MeasurementLog) (nonce data : List Nat),
      VmInstance.Client.findPlatformLog logs = none →
      @VmInstance.Client.logPhase LoadErr IOErr CapErr DerErr VerifyErr logs nonce data =
        .error .NoPlatformMeasurementLog) ∧
    (∀ (logs : List VmInstance.MeasurementLog) (nonce data : List Nat),
      (∀ log ∈ logs, log.rot ≠ VmInstance.RotType.OxideInstance) →
      VmInstance.Client.reconstructDigest logs nonce data =
        sha256Hash (nonce ++ data)) := by
  constructor
  · intro logs nonce data hnone
    unfold VmInstance.Client.logPhase
    rw [hnone]
  · intro logs nonce data hno
    show Sha256.finalize (Sha256.update (Sha256.update
        (logs.foldl VmInstance.Client.digestStep Sha256.new) nonce) data) =
      sha256Hash (nonce ++ data)
    rw [foldl_digestStep_no_instance logs Sha256.new hno]
    rfl

/-- Witness for C3 (amended) at concrete inputs: an empty log list misses the
platform log, and a platform-only log list reconstructs the digest without
any log bytes. -/
theorem missing_log_check_platform_only_witness :
    (VmInstance.Client.findPlatformLog [] = none ∧
      @VmInstance.Client.logPhase Unit Unit Unit Unit Unit [] Fx.n0 Fx.d0 =
        .error .NoPlatformMeasurementLog) ∧
    ((∀ log ∈ [Fx.platLog], log.rot ≠ VmInstance.RotType.OxideInstance) ∧
      VmInstance.Client.reconstructDigest [Fx.platLog] Fx.n0 Fx.d0 =
        sha256Hash (Fx.n0 ++ Fx.d0)) :=
  ⟨⟨rfl,
    (@missing_log_check_platform_only Unit Unit Unit Unit Unit).1 [] Fx.n0 Fx.d0 rfl⟩,
   ⟨by decide,
    (@missing_log_check_platform_only Unit Unit Unit Unit Unit).2
      [Fx.platLog] Fx.n0 Fx.d0 (by decide)⟩⟩

/-- Claim C3 (counterexample): with a fetched log list containing a platform
log but zero instance-typed logs, the whole client pipeline runs to
successful completion (given cooperative external verifiers) — verification
does not fail with a missing-log error, contrary to the claim. -/
theorem client_main_ok_with_zero_instance_logs :
    @VmInstance.Client.main Unit Unit Nat (List Nat) Unit Unit Unit Unit Unit Unit Unit
      true (fun _ => .ok ()) none true (.ok ()) Fx.n0
      ⟨fun _ _ => .ok [Fx.platAtt], .ok [Fx.platLog], .ok [Fx.platChain]⟩
      (fun b => .ok b) (fun _ _ => .ok 0) (fun _ => .ok ()) (fun _ => .ok ())
      (fun _ _ _ _ => .ok ()) = .ok () := rfl

/-- Claim C4 (counterexample): a malformed command on one connection makes
`run` return the decode error without serving the following connection, even
though that same following connection is served when the malformed one is
absent — the accept loop does not continue after a failure. -/
theorem run_stops_after_malformed_command :
    VmInstance.VmInstanceAttestSocketServer.run Fx.decode0 Fx.encode0 Fx.mock0 ""
        [Fx.badEv, Fx.goodEv] = .error (.CommandDeserialize ()) ∧
    VmInstance.VmInstanceAttestSocketServer.run Fx.decode0 Fx.encode0 Fx.mock0 ""
        [Fx.goodEv] = .ok ["resp\n"] := ⟨rfl, rfl⟩

/-- Claim C4 (amended): in `VmInstanceAttestSocketServer::run`, a malformed
command (decode failure), a read error, or an accept error on one connection
terminates the entire run loop with that error (each `?` returns from `run`);
the remaining connections are dropped, not served. -/
theorem run_error_terminates_loop {MockErr JsonErr IOErr : Type}
    (decode : String → Except JsonErr VmInstance.Command)
    (encode : List VmInstance.Attestation → Except JsonErr String)
    (mockAttest : List Nat → List Nat →
      Except MockErr (List VmInstance.Attestation))
    (msg line : String) (jerr : JsonErr) (ioerr : IOErr)
    (w : Option IOErr) (rest : List (VmInstance.ConnEvent IOErr))
    (hdec : decode (msg ++ line) = .error jerr) :
    VmInstance.VmInstanceAttestSocketServer.run decode encode mockAttest msg
        (.conn (.ok line) w :: rest) = .error (.CommandDeserialize jerr) ∧
    VmInstance.VmInstanceAttestSocketServer.run decode encode mockAttest msg
        (.conn (.error ioerr) w :: rest) = .error (.Socket ioerr) ∧
    VmInstance.VmInstanceAttestSocketServer.run decode encode mockAttest msg
        (.acceptFailure ioerr :: rest) = .error (.Socket ioerr) := by
  refine ⟨?_, rfl, rfl⟩
  simp only [VmInstance.VmInstanceAttestSocketServer.run, hdec]

/-- Witness for C4 (amended) at a concrete malformed line, read error and
accept error. -/
theorem run_error_terminates_loop_witness :
    Fx.decode0 ("" ++ "bad\n") = .error () ∧
    (VmInstance.VmInstanceAttestSocketServer.run Fx.decode0 Fx.encode0 Fx.mock0 ""
        (.conn (.ok "bad\n") none :: [Fx.goodEv]) =
      .error (.CommandDeserialize ()) ∧
    VmInstance.VmInstanceAttestSocketServer.run Fx.decode0 Fx.encode0 Fx.mock0 ""
        (.conn (.error ()) none :: [Fx.goodEv]) = .error (.Socket ()) ∧
    VmInstance.VmInstanceAttestSocketServer.run Fx.decode0 Fx.encode0 Fx.mock0 ""
        (.acceptFailure () :: [Fx.goodEv]) = .error (.Socket ())) :=
  ⟨rfl,
   run_error_terminates_loop Fx.decode0 Fx.encode0 Fx.mock0 "" "bad\n" () ()
     none [Fx.goodEv] rfl⟩

/-- Claim C5 (counterexample): passing both a root certificate and the
explicit self-signed flag is accepted — the loaded root is used and the flag
is ignored — rather than rejected as mutually exclusive. -/
theorem rootTrust_accepts_both_options :
    @VmInstance.Client.rootTrust Unit Nat Unit Unit Unit Unit Unit
        (fun _ => .ok 7) (some ()) true = .ok (some 7) := rfl

/-- Claim C5 (amended): providing neither a root certificate nor the
self-signed flag is a configuration error, reported before any network
activity (the pipeline fails with it whatever the connection or attester
does); when a root certificate is given, the self-signed flag is simply
ignored (the two are not mutually exclusive). -/
theorem rootTrust_neither_is_error_rootcert_precedence
    {Path RootBundle Root Cert OxAtt Log LoadErr IOErr CapErr DerErr VerifyErr : Type} :
    (∀ (loadRoot : Path → Except LoadErr RootBundle),
      @VmInstance.Client.rootTrust Path RootBundle LoadErr IOErr CapErr DerErr
          VerifyErr loadRoot none false = .error .NoRootNotSelfSigned) ∧
    (∀ (loadRoot : Path → Except LoadErr RootBundle) (path : Path) (b : Bool),
      @VmInstance.Client.rootTrust Path RootBundle LoadErr IOErr CapErr DerErr
          VerifyErr loadRoot (some path) b =
        @VmInstance.Client.rootTrust Path RootBundle LoadErr IOErr CapErr DerErr
          VerifyErr loadRoot (some path) false) ∧
    (∀ (loadRoot : Path → Except LoadErr RootBundle) (connect : Except IOErr Unit)
      (nonce : List Nat) (ops : VmInstance.VmInstanceAttesterOps CapErr)
      (fromDer : List Nat → Except DerErr Cert)
      (verifyChain : List Cert → Option RootBundle → Except VerifyErr Root)
      (hubDeserAtt : List Nat → Except Unit OxAtt)
      (hubDeserLog : List Nat → Except Unit Log)
      (verifyAttestation : Cert → OxAtt → Log → List Nat → Except VerifyErr Unit),
      @VmInstance.Client.main Path RootBundle Root Cert OxAtt Log LoadErr IOErr
          CapErr DerErr VerifyErr true loadRoot none false connect nonce ops
          fromDer verifyChain hubDeserAtt hubDeserLog verifyAttestation =
        .err .NoRootNotSelfSigned) :=
  ⟨fun _ => rfl, fun _ _ _ => rfl,
   fun _ _ _ _ _ _ _ _ _ => rfl⟩

/-- Claim C6: after the `Attest` round trip, a response list with zero or
more than one attestation makes the client fail with the unexpected-count
error. -/
theorem checkAttestations_requires_exactly_one
    {LoadErr IOErr CapErr DerErr VerifyErr : Type}
    (attestations : List VmInstance.Attestation)
    (h : attestations.length = 0 ∨ 1 < attestations.length) :
    @VmInstance.Client.checkAttestations LoadErr IOErr CapErr DerErr VerifyErr
      attestations = .err .UnexpectedAttestationCount := by
  have hne : attestations.length ≠ 1 := by
    rcases h with h | h <;> omega
  unfold VmInstance.Client.checkAttestations
  rw [if_pos hne]

/-- Witness for C6 at the empty response list. -/
theorem checkAttestations_requires_exactly_one_witness :
    ([] : List VmInstance.Attestation).length = 0 ∧
    @VmInstance.Client.checkAttestations Unit Unit Unit Unit Unit [] =
      .err .UnexpectedAttestationCount :=
  ⟨rfl, checkAttestations_requires_exactly_one [] (Or.inl rfl)⟩

/-- Claim C7: whenever the wrapped attester succeeds and the statement's
`hubpack` encoding respects its `SerializedSize` bound, `AttestMock::attest`
returns exactly one `Attestation` whose `data` is the serialization written
into the `MAX_SIZE` buffer and truncated to the written length — hence never
longer than the schema bound. -/
theorem attest_single_truncated {OxAtt OxErr OxDataErr : Type}
    (enc : OxAtt → List Nat) (maxSize : Nat)
    (oxattest : List Nat → Except OxErr OxAtt)
    (nonce user_data : List Nat) (a : OxAtt)
    (hok : oxattest (VmAttest.attestDigest nonce user_data) = .ok a)
    (hbound : (enc a).length ≤ maxSize) :
    @VmAttest.attest OxAtt OxErr OxDataErr enc maxSize oxattest nonce user_data =
      .ok [{ rot := VmAttest.RotType.OxideHardware, data := enc a }] ∧
    (enc a).length ≤ maxSize := by
  refine ⟨?_, hbound⟩
  unfold VmAttest.attest
  rw [hok]
  unfold VmAttest.hubpackSerialize
  have hlen : (enc a).length ≤ (List.replicate maxSize (0 : Nat)).length := by
    simpa using hbound
  simp only [if_pos hlen]
  rw [List.take_left]

/-- Witness for C7 at a concrete wrapped attester and two-byte encoding. -/
theorem attest_single_truncated_witness :
    (fun _ : List Nat => (Except.ok () : Except Unit Unit))
        (VmAttest.attestDigest Fx.n0 Fx.d0) = .ok () ∧
    ((fun _ : Unit => [3, 4]) ()).length ≤ 3 ∧
    (@VmAttest.attest Unit Unit Unit (fun _ => [3, 4]) 3 (fun _ => .ok ())
        Fx.n0 Fx.d0 =
      .ok [{ rot := VmAttest.RotType.OxideHardware, data := [3, 4] }] ∧
    ((fun _ : Unit => [3, 4]) ()).length ≤ 3) :=
  ⟨rfl, by decide,
   attest_single_truncated (fun _ => [3, 4]) 3 (fun _ => .ok ()) Fx.n0 Fx.d0 ()
     rfl (by decide)⟩

/-- Claim C8: wrapped-attester failures are propagated by `AttestMock` with
their original cause wrapped in the dedicated `OxideAttestError` variant (in
both `attest` and `get_measurement_logs`); a serialization overflow yields
the distinct `Serialize` variant; and `Serialize` differs from every
wrapped-failure value. -/
theorem attestMock_error_propagation {OxAtt Log OxErr OxDataErr : Type}
    (enc : OxAtt → List Nat) (maxSize : Nat)
    (encLog : Log → List Nat) (logMaxSize : Nat)
    (oxfail oxok : List Nat → Except OxErr OxAtt)
    (oxLogFail oxLogOk : Except OxErr Log)
    (nonce user_data : List Nat) (e : OxErr) (de : OxDataErr) (a : OxAtt) (lg : Log)
    (hfail : oxfail (VmAttest.attestDigest nonce user_data) = .error e)
    (hlogfail : oxLogFail = .error e)
    (hok : oxok (VmAttest.attestDigest nonce user_data) = .ok a)
    (hoverflow : maxSize < (enc a).length)
    (hlogok : oxLogOk = .ok lg)
    (hlogoverflow : logMaxSize < (encLog lg).length) :
    @VmAttest.attest OxAtt OxErr OxDataErr enc maxSize oxfail nonce user_data =
      .error (.OxideAttestError e) ∧
    @VmAttest.get_measurement_logs Log OxErr OxDataErr encLog logMaxSize
      oxLogFail = .error (.OxideAttestError e) ∧
    @VmAttest.attest OxAtt OxErr OxDataErr enc maxSize oxok nonce user_data =
      .error .Serialize ∧
    @VmAttest.get_measurement_logs Log OxErr OxDataErr encLog logMaxSize
      oxLogOk = .error .Serialize ∧
    (VmAttest.AttestMockError.Serialize : VmAttest.AttestMockError OxErr OxDataErr) ≠
      .OxideAttestError e ∧
    (VmAttest.AttestMockError.Serialize : VmAttest.AttestMockError OxErr OxDataErr) ≠
      .OxideAttestDataError de := by
  refine ⟨?_, ?_, ?_, ?_, fun hcon => ?_, fun hcon => ?_⟩
  · unfold VmAttest.attest
    rw [hfail]
  · unfold VmAttest.get_measurement_logs
    rw [hlogfail]
  · have hn : ¬ (enc a).length ≤ (List.replicate maxSize (0 : Nat)).length := by
      simpa using Nat.not_le.mpr hoverflow
    unfold VmAttest.attest VmAttest.hubpackSerialize
    simp only [hok, if_neg hn]
  · have hn : ¬ (encLog lg).length ≤ (List.replicate logMaxSize (0 : Nat)).length := by
      simpa using Nat.not_le.mpr hlogoverflow
    unfold VmAttest.get_measurement_logs VmAttest.hubpackSerialize
    simp only [hlogok, if_neg hn]
  · exact VmAttest.AttestMockError.noConfusion hcon
  · exact VmAttest.AttestMockError.noConfusion hcon

/-- Witness for C8: a wrapped attester that fails with a concrete cause, one
succeeding with a two-byte statement over a one-byte bound, and likewise for
the measurement log. -/
theorem attestMock_error_propagation_witness :
    ((fun _ : List Nat => (Except.error () : Except Unit Unit))
        (VmAttest.attestDigest Fx.n0 Fx.d0) = .error () ∧
      (1 : Nat) < ((fun _ : Unit => [1, 2]) ()).length) ∧
    (@VmAttest.attest Unit Unit Unit (fun _ => [1, 2]) 1 (fun _ => .error ())
        Fx.n0 Fx.d0 = .error (.OxideAttestError ()) ∧
      @VmAttest.get_measurement_logs Unit Unit Unit (fun _ => [1, 2]) 1
        (.error ()) = .error (.OxideAttestError ()) ∧
      @VmAttest.attest Unit Unit Unit (fun _ => [1, 2]) 1 (fun _ => .ok ())
        Fx.n0 Fx.d0 = .error .Serialize ∧
      @VmAttest.get_measurement_logs Unit Unit Unit (fun _ => [1, 2]) 1
        (.ok ()) = .error .Serialize ∧
      (VmAttest.AttestMockError.Serialize : VmAttest.AttestMockError Unit Unit) ≠
        .OxideAttestError () ∧
      (VmAttest.AttestMockError.Serialize : VmAttest.AttestMockError Unit Unit) ≠
        .OxideAttestDataError ()) :=
  ⟨⟨rfl, by decide⟩,
   attestMock_error_propagation (fun _ => [1, 2]) 1 (fun _ => [1, 2]) 1
     (fun _ => .error ()) (fun _ => .ok ()) (.error ()) (.ok ()) Fx.n0 Fx.d0
     () () () () rfl rfl rfl (by decide) rfl (by decide)⟩

/-- Claim C9 (counterexample): when the fetched certificate-chain list is
empty, the pipeline passes the per-chain validation loop vacuously, proceeds
all the way to the signer-leaf lookup, and panics there on the out-of-bounds
index `cert_chains[0]` — locating the leaf certificate does panic. -/
theorem client_main_panics_on_empty_cert_chains :
    @VmInstance.Client.main Unit Unit Nat (List Nat) Unit Unit Unit Unit Unit Unit Unit
      true (fun _ => .ok ()) none true (.ok ()) Fx.n0
      ⟨fun _ _ => .ok [Fx.platAtt], .ok [Fx.platLog], .ok []⟩
      (fun b => .ok b) (fun _ _ => .ok 0) (fun _ => .ok ()) (fun _ => .ok ())
      (fun _ _ _ _ => .ok ()) = .panicked "index out of bounds" := rfl

/-- Claim C9 (amended): the leaf certificate the client decodes for
`verify_attestation` is the first certificate of the *first* chain in the
fetched list; because an instance-typed chain panics earlier in the
validation loop, whenever the lookup is reached successfully the first chain
is platform-typed — and the lookup itself panics on an empty chain list. -/
theorem signerLeaf_first_chain_platform
    {RootBundle Root Cert LoadErr IOErr CapErr DerErr VerifyErr : Type}
    (fromDer : List Nat → Except DerErr Cert)
    (verifyChain : List Cert → Option RootBundle → Except VerifyErr Root)
    (root : Option RootBundle) (cert_chains : List VmInstance.CertChain)
    (cert : Cert)
    (hloop : @VmInstance.Client.certChainLoop RootBundle Root Cert LoadErr IOErr
      CapErr DerErr VerifyErr fromDer verifyChain root cert_chains = .ok ())
    (hleaf : @VmInstance.Client.signerLeaf Cert LoadErr IOErr CapErr DerErr
      VerifyErr fromDer cert_chains = .ok cert) :
    (∃ c cs rest,
      cert_chains =
        { rot := VmInstance.RotType.OxidePlatform, certs := c :: cs } :: rest ∧
      fromDer c = .ok cert) ∧
    @VmInstance.Client.signerLeaf Cert LoadErr IOErr CapErr DerErr VerifyErr
      fromDer [] = .panicked "index out of bounds" := by
  refine ⟨?_, rfl⟩
  cases cert_chains with
  | nil => simp [VmInstance.Client.signerLeaf] at hleaf
  | cons chain rest =>
    obtain ⟨r, certs⟩ := chain
    cases certs with
    | nil => simp [VmInstance.Client.signerLeaf] at hleaf
    | cons c cs =>
      cases r with
      | OxideInstance => simp [VmInstance.Client.certChainLoop] at hloop
      | OxidePlatform =>
        simp only [VmInstance.Client.signerLeaf] at hleaf
        cases hfd : fromDer c with
        | error d => rw [hfd] at hleaf; simp at hleaf
        | ok cert0 =>
          rw [hfd] at hleaf
          simp only [VmInstance.POut.ok.injEq] at hleaf
          subst hleaf
          exact ⟨c, cs, rest, rfl, hfd⟩

/-- Witness for C9 (amended) at a singleton platform chain with a one-byte
leaf certificate. -/
theorem signerLeaf_first_chain_platform_witness :
    (@VmInstance.Client.certChainLoop Unit Nat (List Nat) Unit Unit Unit Unit Unit
        (fun b => .ok b) (fun _ _ => .ok 0) none
        [⟨VmInstance.RotType.OxidePlatform, [[7]]⟩] = .ok () ∧
      @VmInstance.Client.signerLeaf (List Nat) Unit Unit Unit Unit Unit
        (fun b => .ok b) [⟨VmInstance.RotType.OxidePlatform, [[7]]⟩] = .ok [7]) ∧
    ((∃ c cs rest,
        [(⟨VmInstance.RotType.OxidePlatform, [[7]]⟩ : VmInstance.CertChain)] =
          { rot := VmInstance.RotType.OxidePlatform, certs := c :: cs } :: rest ∧
        (fun b => (Except.ok b : Except Unit (List Nat))) c = .ok [7]) ∧
      @VmInstance.Client.signerLeaf (List Nat) Unit Unit Unit Unit Unit
        (fun b => .ok b) [] = .panicked "index out of bounds") :=
  ⟨⟨rfl, rfl⟩,
   @signerLeaf_first_chain_platform Unit Nat (List Nat) Unit Unit Unit Unit Unit
     (fun b => .ok b) (fun _ _ => .ok 0) none
     [⟨VmInstance.RotType.OxidePlatform, [[7]]⟩] [7] rfl rfl⟩

/-- Claim C10: both non-`attest` operations of the socket-backed attester are
`todo!` stubs that panic on every invocation, and since the client pipeline
calls `get_cert_chains` before anything else it can never run to successful
completion over the socket transport, whatever the configuration, transport
behavior, and external verifiers do. -/
theorem socket_stubs_panic_and_pipeline_never_completes :
    (∀ (Err : Type),
      (VmInstance.VmInstanceAttestSocket.get_measurement_logs :
          VmInstance.POut Err (List VmInstance.MeasurementLog)) =
        .panicked "VmInstanceAttestSocket::get_measurement_logs") ∧
    (∀ (Err : Type),
      (VmInstance.VmInstanceAttestSocket.get_cert_chains :
          VmInstance.POut Err (List VmInstance.CertChain)) =
        .panicked "VmInstanceAttestSocket::get_cert_chains") ∧
    (∀ (Path RootBundle Root Cert OxAtt Log LoadErr IOErr JsonErr SIOErr DerErr
        VerifyErr : Type)
      (file_exists : Bool) (loadRoot : Path → Except LoadErr RootBundle)
      (root_cert : Option Path) (self_signed : Bool)
      (connect : Except IOErr Unit) (nonce : List Nat)
      (encCmd : VmInstance.Command → Except JsonErr String)
      (transport : String → Except SIOErr String)
      (decResp : String → Except JsonErr (List VmInstance.Attestation))
      (fromDer : List Nat → Except DerErr Cert)
      (verifyChain : List Cert → Option RootBundle → Except VerifyErr Root)
      (hubDeserAtt : List Nat → Except Unit OxAtt)
      (hubDeserLog : List Nat → Except Unit Log)
      (verifyAttestation : Cert → OxAtt → Log → List Nat → Except VerifyErr Unit),
      (@VmInstance.Client.main Path RootBundle Root Cert OxAtt Log LoadErr IOErr
          (VmInstance.VmInstanceAttestSocketError JsonErr SIOErr) DerErr VerifyErr
          file_exists loadRoot root_cert self_signed connect nonce
          (VmInstance.VmInstanceAttestSocket.ops encCmd transport decResp)
          fromDer verifyChain hubDeserAtt hubDeserLog
          verifyAttestation).isOk = false) := by
  refine ⟨fun _ => rfl, fun _ => rfl, ?_⟩
  intro Path RootBundle Root Cert OxAtt Log LoadErr IOErr JsonErr SIOErr DerErr
    VerifyErr file_exists loadRoot root_cert self_signed connect nonce encCmd
    transport decResp fromDer verifyChain hubDeserAtt hubDeserLog verifyAttestation
  unfold VmInstance.Client.main
  cases file_exists with
  | false => rfl
  | true =>
    cases hrt : @VmInstance.Client.rootTrust Path RootBundle LoadErr IOErr
        (VmInstance.VmInstanceAttestSocketError JsonErr SIOErr) DerErr VerifyErr
        loadRoot root_cert self_signed with
    | error e => simp [hrt, VmInstance.POut.isOk]
    | ok root =>
      cases connect with
      | error e => simp [hrt, VmInstance.POut.isOk]
      | ok u =>
        simp [hrt, VmInstance.VmInstanceAttestSocket.ops,
          VmInstance.VmInstanceAttestSocket.get_cert_chains,
          VmInstance.Client.mapCap, VmInstance.pbind, VmInstance.POut.isOk]
